import Mathlib

/-!
Shallow embedding of the transaction-normalization pipeline of
`transactions-to-notion-uploader` (src/utils = unnamed/part_002, mirrored by
src/index.js).  JavaScript strings are Lean `String`s; a possibly-absent JS
value (`undefined`) is `Option String`; JS string falsiness (`undefined` or
`""`) is `jsFalsy`.  `toLowerCase`/`startsWith` are embedded over character
lists (ASCII case mapping, which is exact on the ASCII labels and prefixes
the program compares).  Numbers flowing to the remote sink are modelled by
`JsNum` (NaN / signed infinity / exact rational), with `parseFloatJs`
embedding the ECMAScript `parseFloat` grammar over exact rationals.
-/

/-- A raw CSV row as produced by the row iterator: an association of
column names to string values, looked up like a JS object property read. -/
def RawRow : Type := List (String × String)

instance : DecidableEq RawRow := by
  unfold RawRow
  infer_instance

/-- JS object property read `row[key]`: `undefined` (`none`) when the key is
absent. -/
def RawRow.read (row : RawRow) (key : String) : Option String :=
  List.lookup key row

/-- JS falsiness of a possibly-absent string: `undefined` and `""` are the
falsy string values. -/
def jsFalsy : Option String → Bool
  | none => true
  | some s => s == ""

/-- The JS idiom `x || d` on a possibly-absent string with a string default. -/
def jsOrStr (x : Option String) (d : String) : String :=
  if jsFalsy x then d else x.getD d

/-- The JS idiom `a || b` on two possibly-absent strings (used for
option-overrides-environment merging). -/
def jsCoalesce (a b : Option String) : Option String :=
  if jsFalsy a then b else a

/-- Embedding of `String.prototype.toLowerCase` (ASCII case mapping). -/
def jsToLowerCase (s : String) : String :=
  ⟨s.data.map Char.toLower⟩

/-- Embedding of `String.prototype.startsWith`. -/
def jsStartsWith (s pre : String) : Bool :=
  List.isPrefixOf pre.data s.data

/-- The bank identifiers recognized by the program. -/
inductive BankId where
  | chase
  | amex
  | apple
deriving DecidableEq, Repr

/-- The bank-specific CSV column names (`BANK_MAPPINGS` values). -/
structure FieldMapping where
  transactionDate : String
  description : String
  amount : String
deriving DecidableEq, Repr

/-- `BANK_MAPPINGS` from the source: column names per bank. -/
def BANK_MAPPINGS : BankId → FieldMapping
  | .chase => { transactionDate := "Transaction Date", description := "Description", amount := "Amount" }
  | .amex => { transactionDate := "Date", description := "Description", amount := "Amount" }
  | .apple => { transactionDate := "Transaction Date", description := "Merchant", amount := "Amount (USD)" }

/-- `ALLOWED_PAYMENT_METHODS` from the source. -/
def ALLOWED_PAYMENT_METHODS : List String :=
  ["Amex Platinum", "Apple Card", "Chase Freedom", "Chase Sapphire", "Chase Southwest"]

/-- `ALLOWED_USERS` from the source. -/
def ALLOWED_USERS : List String :=
  ["Alli", "Justin"]

/-- The bank-resolution step at the head of `parseCSV` (lines 37-46 of
src/utils): the payment-method label is lowercased and tested, in order,
for the prefixes chase / amex / apple; no match rejects with the literal
message built from the input label. -/
def resolveBank (paymentMethod : String) : Except String BankId :=
  if jsStartsWith (jsToLowerCase paymentMethod) "chase" then
    .ok .chase
  else if jsStartsWith (jsToLowerCase paymentMethod) "amex" then
    .ok .amex
  else if jsStartsWith (jsToLowerCase paymentMethod) "apple" then
    .ok .apple
  else
    .error ("Unsupported payment method: " ++ paymentMethod ++ ". Cannot determine bank type.")

/-- The normalized transaction record built in the `data` callback of
`parseCSV`. -/
structure CanonicalTransaction where
  description : String
  amount : String
  date : String
  originalData : RawRow
  paymentMethod : String
deriving DecidableEq

/-- The body of the `data` callback of `parseCSV` (lines 57-71 of src/utils):
one raw row plus the active field mapping yields one canonical transaction.
`today` stands for the value of `new Date().toISOString().split(T)[0]`,
the current date formatted `YYYY-MM-DD`. -/
def normalizeRow (data : RawRow) (fm : FieldMapping) (paymentMethod today : String) :
    CanonicalTransaction :=
  { description := jsOrStr (data.read fm.description) "Unknown"
    amount := jsOrStr (data.read fm.amount) "0"
    date := jsOrStr (data.read fm.transactionDate) today
    originalData := data
    paymentMethod := paymentMethod }

/-- One event emitted by the CSV row iterator: a `data` row, the `end`
signal, or a stream `error`. -/
inductive StreamEvent where
  | data (row : RawRow)
  | endOfInput
  | error (msg : String)

/-- The promise executor of `parseCSV` reacting to the stream events in
order: `data` pushes a normalized row onto `results`, the first `end`
resolves with the accumulated list, the first `error` rejects discarding
the accumulation; with no settling event the promise stays pending
(`none`). -/
def settleParse (norm : RawRow → CanonicalTransaction) :
    List StreamEvent → List CanonicalTransaction →
    Option (Except String (List CanonicalTransaction))
  | [], _ => none
  | .data row :: rest, acc => settleParse norm rest (acc ++ [norm row])
  | .endOfInput :: _, acc => some (.ok acc)
  | .error msg :: _, _ => some (.error msg)

deriving instance DecidableEq for Except

/-- Outcome of one `parseCSV` call: how (and whether) the promise settled,
and whether `createReadStream` was reached (the file was opened). -/
structure ParseOutcome where
  result : Option (Except String (List CanonicalTransaction))
  fileOpened : Bool
deriving DecidableEq

/-- `parseCSV(filePath, paymentMethod)` (lines 34-79 of src/utils): resolve
the bank from the label; on failure reject before the file is opened;
otherwise open the stream and process its events.  The file content is
modelled by the list of events the row iterator emits; `today` is the
current date formatted `YYYY-MM-DD`. -/
def parseCSV (paymentMethod : String) (events : List StreamEvent) (today : String) :
    ParseOutcome :=
  match resolveBank paymentMethod with
  | .error e => { result := some (.error e), fileOpened := false }
  | .ok bank =>
      { result :=
          settleParse (fun row => normalizeRow row (BANK_MAPPINGS bank) paymentMethod today)
            events []
        fileOpened := true }

/-- A JS number as it reaches the remote sink: NaN, a signed infinity, or a
numeric value (modelled exactly as a rational; float64 rounding is not
material to any property proved here). -/
inductive JsNum where
  | nan
  | inf (neg : Bool)
  | num (q : ℚ)
deriving DecidableEq, Repr

/-- `Math.abs`. -/
def jsAbs : JsNum → JsNum
  | .nan => .nan
  | .inf _ => .inf false
  | .num q => .num |q|

/-- Numeric value of a list of decimal digit characters. -/
def digitsVal (ds : List Char) : ℕ :=
  ds.foldl (fun n c => 10 * n + (c.toNat - 48)) 0

/-- Leading sign of a `StrDecimalLiteral`; `true` means negative. -/
def readSign : List Char → Bool × List Char
  | '-' :: rest => (true, rest)
  | '+' :: rest => (false, rest)
  | cs => (false, cs)

/-- Exponent part of a `StrDecimalLiteral`, as a signed integer; an `e` not
followed by digits is not consumed and contributes exponent 0. -/
def readExponent (cs : List Char) : Int :=
  match cs with
  | c :: rest =>
      if c == 'e' || c == 'E' then
        match rest with
        | '-' :: rest2 =>
            let ds := rest2.takeWhile Char.isDigit
            if ds.isEmpty then 0 else -(digitsVal ds : Int)
        | '+' :: rest2 =>
            let ds := rest2.takeWhile Char.isDigit
            if ds.isEmpty then 0 else (digitsVal ds : Int)
        | rest2 =>
            let ds := rest2.takeWhile Char.isDigit
            if ds.isEmpty then 0 else (digitsVal ds : Int)
      else 0
  | [] => 0

/-- ECMAScript whitespace skipped by `parseFloat` (ASCII portion). -/
def jsWhitespace (c : Char) : Bool :=
  c == ' ' || c == '\t' || c == '\n' || c == '\r' || c == Char.ofNat 11 || c == Char.ofNat 12

/-- Body of `parseFloat` after whitespace trimming: optional sign, then
`Infinity` or decimal digits with optional fraction and exponent; trailing
garbage is ignored; no digits at all gives NaN. -/
def parseFloatCore (cs : List Char) : JsNum :=
  let sr := readSign cs
  let neg := sr.1
  let cs1 := sr.2
  if List.isPrefixOf "Infinity".data cs1 then .inf neg
  else
    let intDs := cs1.takeWhile Char.isDigit
    let cs2 := cs1.dropWhile Char.isDigit
    let fr : List Char × List Char :=
      match cs2 with
      | '.' :: rest => (rest.takeWhile Char.isDigit, rest.dropWhile Char.isDigit)
      | _ => ([], cs2)
    let fracDs := fr.1
    let cs3 := fr.2
    if intDs.isEmpty && fracDs.isEmpty then .nan
    else
      let mant : ℤ := (digitsVal intDs * 10 ^ fracDs.length + digitsVal fracDs : ℕ)
      let signedMant : ℤ := if neg then -mant else mant
      let e := readExponent cs3
      let numerator : ℤ := if 0 ≤ e then signedMant * (10 : ℤ) ^ e.toNat else signedMant
      let denominator : ℕ :=
        if 0 ≤ e then 10 ^ fracDs.length else 10 ^ fracDs.length * 10 ^ (-e).toNat
      .num (mkRat numerator denominator)

/-- Embedding of the JS builtin `parseFloat` on a string. -/
def parseFloatJs (s : String) : JsNum :=
  parseFloatCore (s.data.dropWhile jsWhitespace)

/-- `formatDateToISO(dateString)` (lines 141-154 of src/utils) together with
its observable warning.  `jsDateISO` abstracts the JS `Date` round-trip:
`jsDateISO s = some iso` models `new Date(s)` being a valid date whose
`toISOString().split(T)[0]` is `iso`, and `none` models `isNaN(getTime())`.
Returns the function result and whether `console.warn` fired: a falsy
input short-circuits to `null` with no warning; a truthy unparseable input
returns `null` after warning. -/
def formatDateToISO (jsDateISO : String → Option String) (dateString : Option String) :
    Option String × Bool :=
  if jsFalsy dateString then (none, false)
  else
    match jsDateISO (dateString.getD "") with
    | some iso => (some iso, false)
    | none => (none, true)

/-- A transaction object as consumed by `uploadToNotion`: any of the four
fields read there may be absent on an arbitrary JS object. -/
structure JsTransaction where
  description : Option String
  amount : Option String
  date : Option String
  paymentMethod : Option String
deriving DecidableEq

/-- View of a parser-produced transaction as an upload input (all fields
present; `originalData` is not read by the uploader). -/
def CanonicalTransaction.toJs (t : CanonicalTransaction) : JsTransaction :=
  { description := some t.description
    amount := some t.amount
    date := some t.date
    paymentMethod := some t.paymentMethod }

/-- An apostrophe, as used in the `whoAmI` label. -/
def apostrophe : String :=
  String.singleton (Char.ofNat 39)

/-- The properties of the record passed to `notionClient.pages.create`
(lines 91-129 of src/utils). -/
structure NotionRecord where
  databaseId : String
  dateStart : String
  title : String
  amount : JsNum
  status : String
  paymentMethodName : String
deriving DecidableEq

/-- The record built for one transaction inside the upload loop.  `today` is
the current date formatted `YYYY-MM-DD`; `jsDateISO` as in
`formatDateToISO`.  `transaction.amount || 0` coerces the default number
`0` back through `parseFloat` exactly like the string `"0"`. -/
def buildNotionRecord (jsDateISO : String → Option String) (databaseId whoAmI today : String)
    (t : JsTransaction) : NotionRecord :=
  { databaseId := databaseId
    dateStart := jsOrStr (formatDateToISO jsDateISO t.date).1 today
    title := jsOrStr t.description "Unknown Transaction"
    amount := jsAbs (parseFloatJs (jsOrStr t.amount "0"))
    status := "Requires Audit"
    paymentMethodName := whoAmI ++ apostrophe ++ "s " ++ jsOrStr t.paymentMethod "Unknown Card" }

/-- The `for…of` loop of `uploadToNotion` with its per-record `try/catch`:
`create i` tells whether the i-th `pages.create` call succeeds; a failed
call is caught, logged and the loop continues with the next record.  The
returned trace lists, in order, every record actually submitted with its
outcome. -/
def uploadAttempts (create : ℕ → Bool) (build : JsTransaction → NotionRecord) :
    ℕ → List JsTransaction → List (NotionRecord × Bool)
  | _, [] => []
  | i, t :: rest => (build t, create i) :: uploadAttempts create build (i + 1) rest

/-- `uploadToNotion(notionClient, databaseId, transactions, whoAmI)`
(lines 82-138 of src/utils), with the remote client abstracted by the
per-call outcome `create`. -/
def uploadToNotion (create : ℕ → Bool) (jsDateISO : String → Option String)
    (databaseId : String) (transactions : List JsTransaction) (whoAmI today : String) :
    List (NotionRecord × Bool) :=
  uploadAttempts create (buildNotionRecord jsDateISO databaseId whoAmI today) 0 transactions

/-- The CLI/env option record handed to `validateAndUploadTransactions`. -/
structure CliOptions where
  csvFilePath : Option String
  paymentMethod : Option String
  notionApiKey : Option String
  notionDatabaseId : Option String
  whoAmI : Option String
  dryRun : Bool

/-- The three environment variables the validator may fall back to. -/
structure ProcessEnv where
  NOTION_API_KEY : Option String
  NOTION_DATABASE_ID : Option String
  WHO_AM_I : Option String

/-- The validated configuration available after all gates pass. -/
structure ValidatedOptions where
  csvFilePath : String
  notionApiKey : String
  notionDatabaseId : String
  whoAmI : String
  paymentMethod : String
  dryRun : Bool
deriving DecidableEq

/-- JS template-literal rendering of a possibly-absent string. -/
def jsShow : Option String → String
  | none => "undefined"
  | some s => s

/-- `fs.access(path)` succeeding: `readable` models the filesystem; an
absent path rejects like any unreadable one. -/
def fsAccessOk (readable : String → Bool) : Option String → Bool
  | none => false
  | some p => readable p

/-- The validation gates of `validateAndUploadTransactions` (lines 157-200
of src/utils), run in source order as fail-fast checks: file readability,
API key, database ID, identity presence, identity allow-list, payment
method allow-list.  The merged values (option `||` environment) are the
ones validated and returned. -/
def validateOptions (readable : String → Bool) (env : ProcessEnv) (opts : CliOptions) :
    Except String ValidatedOptions :=
  if !(fsAccessOk readable opts.csvFilePath) then
    .error ("CSV file not found at path: " ++ jsShow opts.csvFilePath)
  else
    let notionApiKey := jsCoalesce opts.notionApiKey env.NOTION_API_KEY
    let notionDatabaseId := jsCoalesce opts.notionDatabaseId env.NOTION_DATABASE_ID
    let whoAmI := jsCoalesce opts.whoAmI env.WHO_AM_I
    if jsFalsy notionApiKey then
      .error "Notion API key is required. Provide it via --notion-api-key option or NOTION_API_KEY env var."
    else if jsFalsy notionDatabaseId then
      .error "Notion database ID is required. Provide it via --notion-database-id option or NOTION_DATABASE_ID env var."
    else if jsFalsy whoAmI then
      .error "WHO_AM_I is required. Provide it via --who-am-i option or WHO_AM_I env var."
    else if !(ALLOWED_USERS.contains (whoAmI.getD "")) then
      .error ("--who-am-i must be one of: " ++ String.intercalate ", " ALLOWED_USERS)
    else
      match opts.paymentMethod with
      | some pm =>
          if ALLOWED_PAYMENT_METHODS.contains pm then
            .ok { csvFilePath := jsShow opts.csvFilePath
                  notionApiKey := notionApiKey.getD ""
                  notionDatabaseId := notionDatabaseId.getD ""
                  whoAmI := whoAmI.getD ""
                  paymentMethod := pm
                  dryRun := opts.dryRun }
          else
            .error ("--payment-method must be one of: " ++ String.intercalate ", " ALLOWED_PAYMENT_METHODS)
      | none =>
          .error ("--payment-method must be one of: " ++ String.intercalate ", " ALLOWED_PAYMENT_METHODS)

/-! ## Theorems -/

/-- C1: for every payment-method label, the bank resolution step of
`parseCSV` tests the lowercased label for the prefixes chase, amex, apple
in that order and selects the corresponding `BankId`; a label matching no
prefix makes `parseCSV` reject with a message naming that exact label. -/
theorem resolveBank_cases (label today : String) :
    (jsStartsWith (jsToLowerCase label) "chase" = true →
      resolveBank label = .ok .chase) ∧
    (jsStartsWith (jsToLowerCase label) "chase" = false →
      jsStartsWith (jsToLowerCase label) "amex" = true →
      resolveBank label = .ok .amex) ∧
    (jsStartsWith (jsToLowerCase label) "chase" = false →
      jsStartsWith (jsToLowerCase label) "amex" = false →
      jsStartsWith (jsToLowerCase label) "apple" = true →
      resolveBank label = .ok .apple) ∧
    (jsStartsWith (jsToLowerCase label) "chase" = false →
      jsStartsWith (jsToLowerCase label) "amex" = false →
      jsStartsWith (jsToLowerCase label) "apple" = false →
      ∀ events,
        (parseCSV label events today).result =
          some (.error ("Unsupported payment method: " ++ label ++
            ". Cannot determine bank type."))) := by
  refine ⟨fun h1 => ?_, fun h1 h2 => ?_, fun h1 h2 h3 => ?_, fun h1 h2 h3 events => ?_⟩
  · simp [resolveBank, h1]
  · simp [resolveBank, h1, h2]
  · simp [resolveBank, h1, h2, h3]
  · simp [parseCSV, resolveBank, h1, h2, h3]

/-- C1 witness: the label Chase Freedom resolves to the chase bank. -/
theorem resolveBank_cases_witness :
    resolveBank "Chase Freedom" = .ok .chase :=
  (resolveBank_cases "Chase Freedom" "2026-01-01").1 (by decide)

/-- C2: the row normalizer substitutes the defaults Unknown / 0 / current
date for a mapped description / amount / date column that is absent or
falsy in the raw row. -/
theorem normalizeRow_defaults (data : RawRow) (fm : FieldMapping) (pm today : String) :
    (jsFalsy (data.read fm.description) = true →
      (normalizeRow data fm pm today).description = "Unknown") ∧
    (jsFalsy (data.read fm.amount) = true →
      (normalizeRow data fm pm today).amount = "0") ∧
    (jsFalsy (data.read fm.transactionDate) = true →
      (normalizeRow data fm pm today).date = today) := by
  refine ⟨fun h => ?_, fun h => ?_, fun h => ?_⟩ <;>
    simp [normalizeRow, jsOrStr, h]

/-- C2 witness: an empty raw row gets all three defaults. -/
theorem normalizeRow_defaults_witness :
    (normalizeRow ([] : RawRow) (BANK_MAPPINGS .chase) "Chase Freedom" "2026-01-01").description
      = "Unknown" :=
  (normalizeRow_defaults [] (BANK_MAPPINGS .chase) "Chase Freedom" "2026-01-01").1 (by decide)

/-- C3: when all three mapped columns are present (truthy) in the raw row,
the normalizer copies them verbatim, keeps the full raw row as
`originalData`, and echoes the caller-supplied payment-method label. -/
theorem normalizeRow_verbatim (data : RawRow) (fm : FieldMapping) (pm today : String)
    (d a dt : String)
    (hd : data.read fm.description = some d) (hd0 : d ≠ "")
    (ha : data.read fm.amount = some a) (ha0 : a ≠ "")
    (hdt : data.read fm.transactionDate = some dt) (hdt0 : dt ≠ "") :
    normalizeRow data fm pm today =
      { description := d, amount := a, date := dt, originalData := data, paymentMethod := pm } := by
  simp [normalizeRow, jsOrStr, jsFalsy, hd, ha, hdt, hd0, ha0, hdt0]

/-- C3 witness: the chase scenario row is normalized verbatim. -/
theorem normalizeRow_verbatim_witness :
    normalizeRow
        [("Transaction Date", "2023-01-15"), ("Description", "AMAZON.COM"),
         ("Category", "Shopping"), ("Amount", "-50.99")]
        (BANK_MAPPINGS .chase) "Chase Freedom" "2026-01-01" =
      { description := "AMAZON.COM", amount := "-50.99", date := "2023-01-15"
        originalData :=
          [("Transaction Date", "2023-01-15"), ("Description", "AMAZON.COM"),
           ("Category", "Shopping"), ("Amount", "-50.99")]
        paymentMethod := "Chase Freedom" } :=
  normalizeRow_verbatim _ _ _ _ _ _ _ (by decide) (by decide) (by decide) (by decide)
    (by decide) (by decide)

/-- C4: the validator applies its checks as fail-fast gates in the fixed
order unreadable CSV path, missing API key, missing database ID, missing
identity, identity outside the user allow-list, payment method outside the
five-element allow-list; whatever the state of the later checks, the error
is that of the first failing gate. -/
theorem validateOptions_precedence (readable : String → Bool) (env : ProcessEnv)
    (opts : CliOptions) :
    (fsAccessOk readable opts.csvFilePath = false →
      validateOptions readable env opts =
        .error ("CSV file not found at path: " ++ jsShow opts.csvFilePath)) ∧
    (fsAccessOk readable opts.csvFilePath = true →
      jsFalsy (jsCoalesce opts.notionApiKey env.NOTION_API_KEY) = true →
      validateOptions readable env opts =
        .error "Notion API key is required. Provide it via --notion-api-key option or NOTION_API_KEY env var.") ∧
    (fsAccessOk readable opts.csvFilePath = true →
      jsFalsy (jsCoalesce opts.notionApiKey env.NOTION_API_KEY) = false →
      jsFalsy (jsCoalesce opts.notionDatabaseId env.NOTION_DATABASE_ID) = true →
      validateOptions readable env opts =
        .error "Notion database ID is required. Provide it via --notion-database-id option or NOTION_DATABASE_ID env var.") ∧
    (fsAccessOk readable opts.csvFilePath = true →
      jsFalsy (jsCoalesce opts.notionApiKey env.NOTION_API_KEY) = false →
      jsFalsy (jsCoalesce opts.notionDatabaseId env.NOTION_DATABASE_ID) = false →
      jsFalsy (jsCoalesce opts.whoAmI env.WHO_AM_I) = true →
      validateOptions readable env opts =
        .error "WHO_AM_I is required. Provide it via --who-am-i option or WHO_AM_I env var.") ∧
    (fsAccessOk readable opts.csvFilePath = true →
      jsFalsy (jsCoalesce opts.notionApiKey env.NOTION_API_KEY) = false →
      jsFalsy (jsCoalesce opts.notionDatabaseId env.NOTION_DATABASE_ID) = false →
      jsFalsy (jsCoalesce opts.whoAmI env.WHO_AM_I) = false →
      (jsCoalesce opts.whoAmI env.WHO_AM_I).getD "" ∉ ALLOWED_USERS →
      validateOptions readable env opts =
        .error ("--who-am-i must be one of: " ++ String.intercalate ", " ALLOWED_USERS)) ∧
    (fsAccessOk readable opts.csvFilePath = true →
      jsFalsy (jsCoalesce opts.notionApiKey env.NOTION_API_KEY) = false →
      jsFalsy (jsCoalesce opts.notionDatabaseId env.NOTION_DATABASE_ID) = false →
      jsFalsy (jsCoalesce opts.whoAmI env.WHO_AM_I) = false →
      (jsCoalesce opts.whoAmI env.WHO_AM_I).getD "" ∈ ALLOWED_USERS →
      (∀ pm, opts.paymentMethod = some pm → pm ∉ ALLOWED_PAYMENT_METHODS) →
      validateOptions readable env opts =
        .error ("--payment-method must be one of: " ++
          String.intercalate ", " ALLOWED_PAYMENT_METHODS)) := by
  refine ⟨fun h1 => ?_, fun h1 h2 => ?_, fun h1 h2 h3 => ?_, fun h1 h2 h3 h4 => ?_,
    fun h1 h2 h3 h4 h5 => ?_, fun h1 h2 h3 h4 h5 h6 => ?_⟩
  · simp [validateOptions, h1]
  · simp [validateOptions, h1, h2]
  · simp [validateOptions, h1, h2, h3]
  · simp [validateOptions, h1, h2, h3, h4]
  · simp [validateOptions, h1, h2, h3, h4, h5]
  · cases hpm : opts.paymentMethod with
    | none => simp [validateOptions, h1, h2, h3, h4, h5, hpm]
    | some pm => simp [validateOptions, h1, h2, h3, h4, h5, hpm, h6 pm hpm]

/-- C4 witness: with an unreadable path and everything else missing too, the
error is the file-not-found one. -/
theorem validateOptions_precedence_witness :
    validateOptions (fun _ => false) ⟨none, none, none⟩
        ⟨some "missing.csv", none, none, none, none, false⟩ =
      .error ("CSV file not found at path: " ++ jsShow (some "missing.csv")) :=
  (validateOptions_precedence (fun _ => false) ⟨none, none, none⟩
    ⟨some "missing.csv", none, none, none, none, false⟩).1 (by decide)

/-- C5 counterexample: for the concrete non-empty amount text abc, which is
unparseable as a number, the record amount is NaN, not the claimed
default 0. -/
theorem uploadAmount_unparseable_not_zero :
    (buildNotionRecord (fun _ => none) "db" "Alli" "2026-01-01"
        ⟨some "Coffee", some "abc", some "2023-01-15", some "Chase Freedom"⟩).amount ≠
      JsNum.num 0 ∧
    (buildNotionRecord (fun _ => none) "db" "Alli" "2026-01-01"
        ⟨some "Coffee", some "abc", some "2023-01-15", some "Chase Freedom"⟩).amount =
      JsNum.nan := by
  decide

/-- C5 amended: the record amount is `Math.abs(parseFloat(amount || 0))`:
the absolute value of the parsed amount whenever the text parses as a
number, the default 0 only when the amount text is absent or empty, and
NaN (not 0) when the text is non-empty but unparseable. -/
theorem buildNotionRecord_amount (jsDateISO : String → Option String)
    (databaseId whoAmI today : String) (t : JsTransaction) :
    (jsFalsy t.amount = true →
      (buildNotionRecord jsDateISO databaseId whoAmI today t).amount = JsNum.num 0) ∧
    (∀ s q, t.amount = some s → parseFloatJs s = JsNum.num q →
      (buildNotionRecord jsDateISO databaseId whoAmI today t).amount = JsNum.num |q|) ∧
    (∀ s, t.amount = some s → s ≠ "" → parseFloatJs s = JsNum.nan →
      (buildNotionRecord jsDateISO databaseId whoAmI today t).amount = JsNum.nan) := by
  refine ⟨fun h => ?_, fun s q hs hq => ?_, fun s hs hne hnan => ?_⟩
  · have h0 : jsAbs (parseFloatJs "0") = JsNum.num 0 := by decide
    simp [buildNotionRecord, jsOrStr, h, h0]
  · by_cases hse : s = ""
    · subst hse
      have : parseFloatJs "" = JsNum.nan := by decide
      rw [this] at hq
      exact absurd hq (by simp)
    · simp [buildNotionRecord, jsOrStr, jsFalsy, hs, hse, hq, jsAbs]
  · simp [buildNotionRecord, jsOrStr, jsFalsy, hs, hne, hnan, jsAbs]

/-- C5 amended witness: the scenario amount -50.99 is uploaded as its
absolute value. -/
theorem buildNotionRecord_amount_witness :
    (buildNotionRecord (fun _ => none) "db" "Alli" "2026-01-01"
        ⟨some "AMAZON.COM", some "-50.99", some "2023-01-15", some "Chase Freedom"⟩).amount =
      JsNum.num |mkRat (-5099) 100| :=
  (buildNotionRecord_amount (fun _ => none) "db" "Alli" "2026-01-01"
      ⟨some "AMAZON.COM", some "-50.99", some "2023-01-15", some "Chase Freedom"⟩).2.1
    "-50.99" (mkRat (-5099) 100) rfl (by decide)

/-- Every call of the upload loop yields one attempted record per input
transaction, in order, with the i-th outcome given by the i-th remote
call. -/
theorem uploadAttempts_get (create : ℕ → Bool) (build : JsTransaction → NotionRecord)
    (i : ℕ) (txs : List JsTransaction) (j : ℕ) :
    (uploadAttempts create build i txs).get? j =
      (txs.get? j).map (fun t => (build t, create (i + j))) := by
  induction txs generalizing i j with
  | nil => simp [uploadAttempts]
  | cons t rest ih =>
      cases j with
      | zero => simp [uploadAttempts]
      | succ j =>
          have hidx : (i + 1) + j = i + (j + 1) := by omega
          simp only [uploadAttempts, List.get?]
          rw [ih (i + 1) j, hidx]

/-- The upload loop length lemma: one attempt per transaction. -/
theorem uploadAttempts_length (create : ℕ → Bool) (build : JsTransaction → NotionRecord)
    (i : ℕ) (txs : List JsTransaction) :
    (uploadAttempts create build i txs).length = txs.length := by
  induction txs generalizing i with
  | nil => rfl
  | cons t rest ih => simp [uploadAttempts, ih]

/-- C6: even when the remote create call fails at position k, the upload
loop attempts every one of the N records in order: the attempt trace has
one entry per transaction, and the j-th entry is the j-th transaction's
record with the j-th call's outcome. -/
theorem uploadToNotion_attempts_every_record (create : ℕ → Bool)
    (jsDateISO : String → Option String) (databaseId whoAmI today : String)
    (txs : List JsTransaction) (k : ℕ) (_hk : k < txs.length)
    (_hfail : create k = false) :
    (uploadToNotion create jsDateISO databaseId txs whoAmI today).length = txs.length ∧
    ∀ j : ℕ,
      (uploadToNotion create jsDateISO databaseId txs whoAmI today).get? j =
        (txs.get? j).map
          (fun t => (buildNotionRecord jsDateISO databaseId whoAmI today t, create j)) := by
  refine ⟨uploadAttempts_length _ _ _ _, fun j => ?_⟩
  simpa using uploadAttempts_get create (buildNotionRecord jsDateISO databaseId whoAmI today) 0 txs j

/-- C6 witness: with a remote that fails every call, both records of a
two-transaction batch are still attempted. -/
theorem uploadToNotion_attempts_every_record_witness :
    (uploadToNotion (fun _ => false) (fun _ => none) "db"
        [⟨some "A", some "1", some "2023-01-15", some "Chase Freedom"⟩,
         ⟨some "B", some "2", some "2023-01-16", some "Chase Freedom"⟩]
        "Alli" "2026-01-01").length = 2 :=
  (uploadToNotion_attempts_every_record (fun _ => false) (fun _ => none) "db"
      "Alli" "2026-01-01"
      [⟨some "A", some "1", some "2023-01-15", some "Chase Freedom"⟩,
       ⟨some "B", some "2", some "2023-01-16", some "Chase Freedom"⟩]
      0 (by decide) rfl).1

/-- C7: a payment-method label matching no recognized bank prefix makes
`parseCSV` reject without ever opening the file, with the message naming
the exact label, whatever the file would have contained. -/
theorem parseCSV_unsupported_never_opens_file (label today : String)
    (events : List StreamEvent)
    (h1 : jsStartsWith (jsToLowerCase label) "chase" = false)
    (h2 : jsStartsWith (jsToLowerCase label) "amex" = false)
    (h3 : jsStartsWith (jsToLowerCase label) "apple" = false) :
    (parseCSV label events today).fileOpened = false ∧
    (parseCSV label events today).result =
      some (.error ("Unsupported payment method: " ++ label ++
        ". Cannot determine bank type.")) := by
  constructor <;> simp [parseCSV, resolveBank, h1, h2, h3]

/-- C7 witness: the scenario label Unsupported Card is rejected with the
file unopened. -/
theorem parseCSV_unsupported_never_opens_file_witness :
    (parseCSV "Unsupported Card" [] "2026-01-01").fileOpened = false :=
  (parseCSV_unsupported_never_opens_file "Unsupported Card" "2026-01-01" []
    (by decide) (by decide) (by decide)).1

/-- C8 counterexample: for the concrete transaction with no date at all the
current date is substituted but no warning fires, against the claim that a
warning is logged for an absent date. -/
theorem uploadDate_absent_no_warning :
    (formatDateToISO (fun _ => none) none).2 = false ∧
    (buildNotionRecord (fun _ => none) "db" "Alli" "2026-01-01"
        ⟨some "Coffee", some "1.00", none, some "Chase Freedom"⟩).dateStart =
      "2026-01-01" := by
  decide

/-- C8 amended: the record date never makes the upload fail: an absent or
empty date text silently becomes the current date with no warning; a
present but unparseable date text becomes the current date with a warning;
a parseable date text is reformatted to its `YYYY-MM-DD` form with no
warning. -/
theorem buildNotionRecord_date (jsDateISO : String → Option String)
    (databaseId whoAmI today : String) (t : JsTransaction) :
    (jsFalsy t.date = true →
      (buildNotionRecord jsDateISO databaseId whoAmI today t).dateStart = today ∧
      (formatDateToISO jsDateISO t.date).2 = false) ∧
    (∀ s, t.date = some s → s ≠ "" → jsDateISO s = none →
      (buildNotionRecord jsDateISO databaseId whoAmI today t).dateStart = today ∧
      (formatDateToISO jsDateISO t.date).2 = true) ∧
    (∀ s iso, t.date = some s → s ≠ "" → jsDateISO s = some iso → iso ≠ "" →
      (buildNotionRecord jsDateISO databaseId whoAmI today t).dateStart = iso ∧
      (formatDateToISO jsDateISO t.date).2 = false) := by
  refine ⟨fun h => ?_, fun s hs hne hparse => ?_, fun s iso hs hne hparse hiso => ?_⟩
  · constructor <;> simp [buildNotionRecord, formatDateToISO, jsOrStr, h]
  · constructor <;>
      simp [buildNotionRecord, formatDateToISO, jsOrStr, jsFalsy, hs, hne, hparse]
  · constructor <;>
      simp [buildNotionRecord, formatDateToISO, jsOrStr, jsFalsy, hs, hne, hparse, hiso]

/-- C8 amended witness: a parseable scenario date is passed through
reformatted with no warning. -/
theorem buildNotionRecord_date_witness :
    (buildNotionRecord (fun s => if s == "2023-01-15" then some "2023-01-15" else none)
        "db" "Alli" "2026-01-01"
        ⟨some "AMAZON.COM", some "-50.99", some "2023-01-15", some "Chase Freedom"⟩).dateStart =
      "2023-01-15" :=
  ((buildNotionRecord_date (fun s => if s == "2023-01-15" then some "2023-01-15" else none)
      "db" "Alli" "2026-01-01"
      ⟨some "AMAZON.COM", some "-50.99", some "2023-01-15", some "Chase Freedom"⟩).2.2
    "2023-01-15" "2023-01-15" rfl (by decide) (by decide) (by decide)).1

/-- Processing a run of data events appends their normalized rows, in
order, to the accumulated results. -/
theorem settleParse_append_data (norm : RawRow → CanonicalTransaction)
    (rows : List RawRow) (evs : List StreamEvent) (acc : List CanonicalTransaction) :
    settleParse norm (rows.map StreamEvent.data ++ evs) acc =
      settleParse norm evs (acc ++ rows.map norm) := by
  induction rows generalizing acc with
  | nil => simp
  | cons r rs ih => simp [settleParse, ih]

/-- C9: once the bank resolves, `parseCSV` resolves with exactly one
normalized transaction per input row in input order, and only when the
iterator signals end-of-input; an iterator error rejects with that error,
discarding the rows already accumulated; with no terminal signal the
promise never settles. -/
theorem parseCSV_stream_semantics (pm today : String) (bank : BankId)
    (hb : resolveBank pm = .ok bank) (rows : List RawRow) :
    (parseCSV pm (rows.map StreamEvent.data ++ [StreamEvent.endOfInput]) today).result =
      some (.ok (rows.map (fun r => normalizeRow r (BANK_MAPPINGS bank) pm today))) ∧
    (∀ msg rest,
      (parseCSV pm (rows.map StreamEvent.data ++ StreamEvent.error msg :: rest) today).result =
        some (.error msg)) ∧
    (parseCSV pm (rows.map StreamEvent.data) today).result = none := by
  refine ⟨?_, fun msg rest => ?_, ?_⟩
  · simp [parseCSV, hb, settleParse_append_data, settleParse]
  · simp [parseCSV, hb, settleParse_append_data, settleParse]
  · have h := settleParse_append_data
      (fun row => normalizeRow row (BANK_MAPPINGS bank) pm today) rows [] []
    simp only [List.append_nil] at h
    simp [parseCSV, hb, h, settleParse]

/-- C9 witness: a one-row chase file resolves with that row normalized. -/
theorem parseCSV_stream_semantics_witness :
    (parseCSV "Chase Freedom"
        [StreamEvent.data
          [("Transaction Date", "2023-01-15"), ("Description", "AMAZON.COM"),
           ("Amount", "-50.99")],
         StreamEvent.endOfInput] "2026-01-01").result =
      some (.ok
        [normalizeRow
          [("Transaction Date", "2023-01-15"), ("Description", "AMAZON.COM"),
           ("Amount", "-50.99")]
          (BANK_MAPPINGS .chase) "Chase Freedom" "2026-01-01"]) :=
  (parseCSV_stream_semantics "Chase Freedom" "2026-01-01" .chase (by decide)
    [[("Transaction Date", "2023-01-15"), ("Description", "AMAZON.COM"),
      ("Amount", "-50.99")]]).1

/-- A successful validation forces the payment method to be one of the five
allow-listed labels. -/
theorem validateOptions_ok_mem (readable : String → Bool) (env : ProcessEnv)
    (opts : CliOptions) (v : ValidatedOptions)
    (hv : validateOptions readable env opts = .ok v) :
    v.paymentMethod ∈ ALLOWED_PAYMENT_METHODS := by
  simp only [validateOptions] at hv
  split at hv
  · simp at hv
  · split at hv
    · simp at hv
    · split at hv
      · simp at hv
      · split at hv
        · simp at hv
        · split at hv
          · simp at hv
          · split at hv
            · split at hv
              · rename_i hcont
                cases hv
                simpa using hcont
              · simp at hv
            · simp at hv

/-- C10: every allow-listed payment method starts (case-insensitively) with
one of the resolver prefixes, so after a successful validation the bank
resolution inside `parseCSV` always succeeds and the file is always
opened. -/
theorem allowlist_always_resolves (readable : String → Bool) (env : ProcessEnv)
    (opts : CliOptions) (v : ValidatedOptions)
    (hv : validateOptions readable env opts = .ok v) :
    (∀ pm ∈ ALLOWED_PAYMENT_METHODS,
      (jsStartsWith (jsToLowerCase pm) "chase" || jsStartsWith (jsToLowerCase pm) "amex" ||
        jsStartsWith (jsToLowerCase pm) "apple") = true ∧
      (resolveBank pm).isOk = true) ∧
    (resolveBank v.paymentMethod).isOk = true ∧
    (∀ events today, (parseCSV v.paymentMethod events today).fileOpened = true) := by
  have hmem := validateOptions_ok_mem readable env opts v hv
  have hall : ∀ pm ∈ ALLOWED_PAYMENT_METHODS,
      (jsStartsWith (jsToLowerCase pm) "chase" || jsStartsWith (jsToLowerCase pm) "amex" ||
        jsStartsWith (jsToLowerCase pm) "apple") = true ∧
      (resolveBank pm).isOk = true := by decide
  refine ⟨hall, (hall _ hmem).2, fun events today => ?_⟩
  have hok := (hall _ hmem).2
  cases hrb : resolveBank v.paymentMethod with
  | error e => rw [hrb] at hok; simp [Except.isOk, Except.toBool] at hok
  | ok b => simp [parseCSV, hrb]

/-- C10 witness: a concretely validated configuration with Chase Freedom
resolves its bank. -/
theorem allowlist_always_resolves_witness :
    (resolveBank
        (ValidatedOptions.paymentMethod ⟨"a.csv", "k", "d", "Alli", "Chase Freedom", false⟩)).isOk =
      true :=
  (allowlist_always_resolves (fun _ => true) ⟨none, none, none⟩
      ⟨some "a.csv", some "Chase Freedom", some "k", some "d", some "Alli", false⟩
      ⟨"a.csv", "k", "d", "Alli", "Chase Freedom", false⟩ (by decide)).2.1
